import Mathlib

/-!
Verification of the open-saas-kit repository's Authenticated Data-Loading
Contract and related components: the route guard in
src/unnamed/part_000 (the protected route group's beforeLoad), the
Server Function Boundary and Query Cache conventions described by the
specification, the drizzle configuration in
src/packages/database/drizzle.config.ts, and the PaginationLink component
in src/unnamed/part_003.
-/

/-- A session issued by the Session Provider: subject identity and expiry. -/
structure Session where
  subject : String
  expiry : Nat
  deriving Repr, DecidableEq

/-- Outcome of a route guard: either a terminal redirect to a path, or
pass-through to the loader phase. -/
inductive GuardOutcome where
  | redirectTo (path : String)
  | pass
  deriving Repr, DecidableEq

/-- The beforeLoad guard of the protected route group, from
src/unnamed/part_000 lines 84 to 92 and lines 336 to 344: getSession is
consulted, and if no session exists a redirect to the /login route is
thrown; otherwise control returns normally. The session argument is the
result of getSession on the incoming request headers. -/
def beforeLoad (session : Option Session) : GuardOutcome :=
  match session with
  | none => GuardOutcome.redirectTo "/login"
  | some _ => GuardOutcome.pass

/-- A query key: an ordered list of primitive values, here string
components. -/
abbrev QueryKey := List String

/-- Modelled from the spec: a Query Cache entry holds the last-fetched
value and the staleness timestamp (the time it was fetched). -/
structure QueryEntry (α : Type) where
  value : α
  fetchedAt : Nat
  deriving Repr, DecidableEq

/-- Lookup of a key in an association list of cache entries. -/
def lookupEntries {α : Type} (l : List (QueryKey × QueryEntry α))
    (k : QueryKey) : Option (QueryEntry α) :=
  (l.find? (fun p => decide (p.1 = k))).map Prod.snd

/-- Modelled from the spec: the Query Cache, a key-addressed cache of
asynchronous results, as an association list from query keys to entries. -/
structure QueryCache (α : Type) where
  entries : List (QueryKey × QueryEntry α)
  deriving Repr, DecidableEq

/-- Lookup of a query key in the cache. -/
def QueryCache.lookup {α : Type} (c : QueryCache α) (k : QueryKey) :
    Option (QueryEntry α) :=
  lookupEntries c.entries k

/-- Store an entry under a key, replacing any entry previously held for
that key. -/
def QueryCache.store {α : Type} (c : QueryCache α) (k : QueryKey)
    (e : QueryEntry α) : QueryCache α :=
  QueryCache.mk ((k, e) :: c.entries.filter (fun p => decide (p.1 ≠ k)))

/-- Modelled from the spec: an entry is fresh at time now when its age is
within the staleness window, the duration after which a cached entry is
eligible for re-fetch. -/
def QueryEntry.isFresh {α : Type} (e : QueryEntry α)
    (staleTime now : Nat) : Bool :=
  decide (now - e.fetchedAt ≤ staleTime)

/-- Modelled from the spec: the loader phase's ensure step. If the cache
already holds a fresh-enough entry for the key, the cache is left
untouched and no fetch occurs; otherwise the fetch function runs and its
value is stored with the current time as staleness timestamp. Returns the
updated cache and the number of fetches issued. -/
def ensureQueryData {α : Type} (c : QueryCache α) (k : QueryKey)
    (fetch : Unit → α) (staleTime now : Nat) : QueryCache α × Nat :=
  match c.lookup k with
  | some e =>
      if e.isFresh staleTime now then (c, 0)
      else (c.store k (QueryEntry.mk (fetch ()) now), 1)
  | none => (c.store k (QueryEntry.mk (fetch ()) now), 1)

theorem lookup_store {α : Type} (c : QueryCache α) (k : QueryKey)
    (e : QueryEntry α) : (c.store k e).lookup k = some e := by
  simp [QueryCache.lookup, QueryCache.store, lookupEntries, List.find?]

theorem ensure_lookup_isSome {α : Type} (c : QueryCache α) (k : QueryKey)
    (fetch : Unit → α) (staleTime now : Nat) :
    ((ensureQueryData c k fetch staleTime now).1.lookup k).isSome = true := by
  unfold ensureQueryData
  cases hc : c.lookup k with
  | none => simp [lookup_store]
  | some e =>
      by_cases hf : e.isFresh staleTime now
      · simp [hf, hc]
      · simp [hf, lookup_store]

/-- The phases of a route transition, in the order the specification
mandates them. -/
inductive Phase where
  | guardPhase
  | loaderPhase
  | renderPhase
  deriving Repr, DecidableEq

/-- Numeric position of a phase in the mandated order. -/
def phaseIdx : Phase → Nat
  | Phase.guardPhase => 0
  | Phase.loaderPhase => 1
  | Phase.renderPhase => 2

/-- Result of processing one route transition: a terminal redirect, a
rendered value, or a render-time cache miss (which the contract says must
never occur). -/
inductive TransitionResult (α : Type) where
  | redirected (path : String)
  | rendered (value : α)
  | renderMiss
  deriving Repr, DecidableEq

/-- Observable output of a route transition: its result, the cache as
left by the transition, the number of data fetches issued, and the trace
of phases that ran, in order. -/
structure TransitionOutput (α : Type) where
  result : TransitionResult α
  cache : QueryCache α
  fetchCount : Nat
  trace : List Phase
  deriving Repr, DecidableEq

/-- Modelled from the spec: the Router's per-request control flow, which
is not itself repository code (the Router is an external library). The
guard phase runs the source beforeLoad on the session derived from the
request headers; a redirect is terminal, so neither the loader nor the
render phase runs and no fetch is issued. On pass-through the loader
phase ensures the query data is resident, and the render phase then reads
the cached entry synchronously. -/
def processTransition {α : Type} (session : Option Session)
    (c : QueryCache α) (k : QueryKey) (fetch : Unit → α)
    (staleTime now : Nat) : TransitionOutput α :=
  match beforeLoad session with
  | GuardOutcome.redirectTo p =>
      { result := TransitionResult.redirected p, cache := c,
        fetchCount := 0, trace := [Phase.guardPhase] }
  | GuardOutcome.pass =>
      let step := ensureQueryData c k fetch staleTime now
      match step.1.lookup k with
      | some e =>
          { result := TransitionResult.rendered e.value, cache := step.1,
            fetchCount := step.2,
            trace := [Phase.guardPhase, Phase.loaderPhase, Phase.renderPhase] }
      | none =>
          { result := TransitionResult.renderMiss, cache := step.1,
            fetchCount := step.2,
            trace := [Phase.guardPhase, Phase.loaderPhase, Phase.renderPhase] }

/-- C1: for every route in the authenticated route group, processing a
request that carries no valid session redirects to the login route, issues
no data fetch, and never reaches the loader phase: the guard's redirect is
terminal. -/
theorem no_session_redirects_without_fetch (α : Type) (c : QueryCache α)
    (k : QueryKey) (fetch : Unit → α) (staleTime now : Nat) :
    (processTransition none c k fetch staleTime now).result
        = TransitionResult.redirected "/login"
    ∧ (processTransition none c k fetch staleTime now).fetchCount = 0
    ∧ (processTransition none c k fetch staleTime now).cache = c
    ∧ Phase.loaderPhase ∉ (processTransition none c k fetch staleTime now).trace := by
  refine ⟨rfl, rfl, rfl, ?_⟩
  simp [processTransition, beforeLoad]

/-- C6: within every single route transition the phases occur in strict
order, guard before loader before render, and whenever the render phase
runs it never observes a cache miss for the data the loader phase was
responsible for. -/
theorem transition_phases_ordered (α : Type) (session : Option Session)
    (c : QueryCache α) (k : QueryKey) (fetch : Unit → α)
    (staleTime now : Nat) :
    List.Chain' (fun a b => phaseIdx a < phaseIdx b)
        (processTransition session c k fetch staleTime now).trace
    ∧ (processTransition session c k fetch staleTime now).result
        ≠ TransitionResult.renderMiss := by
  cases session with
  | none =>
      constructor
      · simp [processTransition, beforeLoad]
      · simp [processTransition, beforeLoad]
  | some s =>
      have hsome := ensure_lookup_isSome c k fetch staleTime now
      constructor
      · cases hl : (ensureQueryData c k fetch staleTime now).1.lookup k with
        | none => simp [processTransition, beforeLoad, hl, phaseIdx]
        | some e => simp [processTransition, beforeLoad, hl, phaseIdx]
      · cases hl : (ensureQueryData c k fetch staleTime now).1.lookup k with
        | none => rw [hl] at hsome; simp at hsome
        | some e => simp [processTransition, beforeLoad, hl]

/-- C8: the guard-then-load sequence is idempotent with respect to
fetching: starting from an already-authenticated session and a cache
whose entry for the key is already fresh, running the sequence a second
time issues no additional fetch and leaves the cache unchanged. -/
theorem guard_then_load_idempotent {α : Type} (s : Session)
    (c : QueryCache α) (k : QueryKey) (fetch : Unit → α)
    (staleTime now : Nat) (e : QueryEntry α)
    (hl : c.lookup k = some e) (hf : e.isFresh staleTime now = true) :
    (processTransition (some s)
        (processTransition (some s) c k fetch staleTime now).cache
        k fetch staleTime now).fetchCount = 0
    ∧ (processTransition (some s)
        (processTransition (some s) c k fetch staleTime now).cache
        k fetch staleTime now).cache
      = (processTransition (some s) c k fetch staleTime now).cache
    ∧ (processTransition (some s) c k fetch staleTime now).cache = c
    ∧ (processTransition (some s) c k fetch staleTime now).fetchCount = 0 := by
  have hens : ensureQueryData c k fetch staleTime now = (c, 0) := by
    unfold ensureQueryData
    rw [hl]
    simp [hf]
  have hrun : (processTransition (some s) c k fetch staleTime now).cache = c
      ∧ (processTransition (some s) c k fetch staleTime now).fetchCount = 0 := by
    unfold processTransition
    rw [show beforeLoad (some s) = GuardOutcome.pass from rfl]
    simp only [hens]
    cases hl2 : QueryCache.lookup c k with
    | none => rw [hl] at hl2; cases hl2
    | some e2 => simp
  refine ⟨?_, ?_, hrun.1, hrun.2⟩
  · rw [hrun.1]
    exact hrun.2
  · rw [hrun.1]
    exact hrun.1

/-- Witness for C8 at a concrete cache: one entry under key [posts],
fetched at time 5, staleness window 10, current time 7, so the entry is
fresh and the repeated sequence fetches nothing and keeps the cache. -/
theorem guard_then_load_idempotent_witness :
    (QueryCache.mk [([ "posts" ], QueryEntry.mk (42 : Nat) 5)]).lookup ["posts"]
        = some (QueryEntry.mk 42 5)
    ∧ (QueryEntry.mk (42 : Nat) 5).isFresh 10 7 = true
    ∧ ((processTransition (some ⟨"u1", 100⟩)
          (processTransition (some ⟨"u1", 100⟩)
            (QueryCache.mk [(["posts"], QueryEntry.mk (42 : Nat) 5)])
            ["posts"] (fun _ => 0) 10 7).cache
          ["posts"] (fun _ => 0) 10 7).fetchCount = 0
    ∧ (processTransition (some ⟨"u1", 100⟩)
          (QueryCache.mk [(["posts"], QueryEntry.mk (42 : Nat) 5)])
          ["posts"] (fun _ => 0) 10 7).cache
        = QueryCache.mk [(["posts"], QueryEntry.mk (42 : Nat) 5)]) := by
  have h := guard_then_load_idempotent (α := Nat) ⟨"u1", 100⟩
    (QueryCache.mk [(["posts"], QueryEntry.mk 42 5)]) ["posts"]
    (fun _ => 0) 10 7 (QueryEntry.mk 42 5) (by decide) (by decide)
  exact ⟨by decide, by decide, h.1, h.2.2.1⟩

/-- The enumerated failure codes of the Structured Result contract. -/
inductive FailureCode where
  | validationError
  | authRequired
  | forbidden
  | notFound
  deriving Repr, DecidableEq

/-- Wire string of each enumerated failure code. -/
def FailureCode.wire : FailureCode → String
  | FailureCode.validationError => "VALIDATION_ERROR"
  | FailureCode.authRequired => "AUTH_REQUIRED"
  | FailureCode.forbidden => "FORBIDDEN"
  | FailureCode.notFound => "NOT_FOUND"

/-- Modelled from the spec: the Structured Result, a tagged union returned
by every server handler: either a success payload, or a human-readable
message together with an enumerated failure code. -/
inductive StructuredResult (α : Type) where
  | success (data : α)
  | failure (message : String) (code : FailureCode)
  deriving Repr, DecidableEq

/-- Modelled from the spec: the expected domain failures a handler body
may signal besides the boundary's own validation and authentication
failures. -/
inductive DomainFailure where
  | forbidden (message : String)
  | notFound (message : String)
  deriving Repr, DecidableEq

/-- Failure code carried by a domain failure. -/
def DomainFailure.code : DomainFailure → FailureCode
  | DomainFailure.forbidden _ => FailureCode.forbidden
  | DomainFailure.notFound _ => FailureCode.notFound

/-- Message carried by a domain failure. -/
def DomainFailure.message : DomainFailure → String
  | DomainFailure.forbidden m => m
  | DomainFailure.notFound m => m

/-- Modelled from the spec: the outcome of running a handler body over
state σ: success with a payload and an updated state, an expected domain
failure that leaves the state unchanged, or an unexpected internal fault. -/
inductive BodyOutcome (α σ : Type) where
  | ok (data : α) (state : σ)
  | domainFail (f : DomainFailure)
  | fault (message : String)
  deriving Repr, DecidableEq

/-- What a caller of a server handler observes: a returned Structured
Result, or a raised exception. -/
inductive HandlerOutput (α : Type) where
  | returned (r : StructuredResult α)
  | raised (message : String)
  deriving Repr, DecidableEq

/-- Modelled from the spec: the Server Function Boundary. Input is
validated against the declared schema before anything else; the session is
re-derived from the request headers, never from client-supplied identity;
the body runs only after both validation and authentication succeed;
expected failures come back as tagged Structured Results and are never
raised; only unexpected internal faults propagate as raised exceptions.
The value is the observed output, the final state, and whether the handler
body executed. -/
def serverHandler {ι σ α : Type} (validate : ι → Bool)
    (body : Session → ι → σ → BodyOutcome α σ)
    (session : Option Session) (input : ι) (state : σ) :
    HandlerOutput α × σ × Bool :=
  if validate input then
    match session with
    | none =>
        (HandlerOutput.returned
          (StructuredResult.failure "Authentication required"
            FailureCode.authRequired), state, false)
    | some s =>
        match body s input state with
        | BodyOutcome.ok a st =>
            (HandlerOutput.returned (StructuredResult.success a), st, true)
        | BodyOutcome.domainFail f =>
            (HandlerOutput.returned
              (StructuredResult.failure f.message f.code), state, true)
        | BodyOutcome.fault m => (HandlerOutput.raised m, state, true)
  else
    (HandlerOutput.returned
      (StructuredResult.failure "Invalid input"
        FailureCode.validationError), state, false)

/-- The create-post schema of the spec's example scenario: the title must
have minimum length 1. -/
def createPostValidate (title : String) : Bool :=
  decide (1 ≤ title.length)

/-- The create-post body of the spec's example scenario: appends the new
post title to the stored list of posts. -/
def createPostBody (_s : Session) (title : String) (posts : List String) :
    BodyOutcome String (List String) :=
  BodyOutcome.ok title (posts ++ [title])

/-- C2: for every server handler, a call whose input fails the declared
schema does not execute the handler body, leaves the state untouched, and
returns a failure Structured Result whose code is VALIDATION_ERROR. -/
theorem handler_invalid_input_rejected {ι σ α : Type} (validate : ι → Bool)
    (body : Session → ι → σ → BodyOutcome α σ) (session : Option Session)
    (input : ι) (state : σ) (h : validate input = false) :
    serverHandler validate body session input state
      = (HandlerOutput.returned
          (StructuredResult.failure "Invalid input"
            FailureCode.validationError), state, false) := by
  simp [serverHandler, h]

/-- Witness for C2 at the spec's example scenario: the empty title fails
the minimum-length-1 schema, the body never runs, no post row is created,
and the result code is VALIDATION_ERROR. -/
theorem handler_invalid_input_rejected_witness :
    createPostValidate "" = false
    ∧ serverHandler createPostValidate createPostBody
        (some ⟨"u1", 100⟩) "" []
      = (HandlerOutput.returned
          (StructuredResult.failure "Invalid input"
            FailureCode.validationError), [], false) :=
  ⟨by decide, handler_invalid_input_rejected createPostValidate
    createPostBody (some ⟨"u1", 100⟩) "" [] (by decide)⟩

/-- C3 counterexample: the claim says every call whose request headers
yield no session returns a failure with code AUTH_REQUIRED, but when the
input also fails the declared schema the boundary validates first, so the
create-post handler called with the empty title and no session returns
VALIDATION_ERROR, not AUTH_REQUIRED. -/
theorem no_session_auth_required_counterexample :
    (serverHandler createPostValidate createPostBody none "" []).1
      = HandlerOutput.returned
          (StructuredResult.failure "Invalid input"
            FailureCode.validationError)
    ∧ (serverHandler createPostValidate createPostBody none "" []).1
      ≠ HandlerOutput.returned
          (StructuredResult.failure "Authentication required"
            FailureCode.authRequired)
    ∧ ∀ m : String,
        (serverHandler createPostValidate createPostBody none "" []).1
          ≠ HandlerOutput.returned
              (StructuredResult.failure m FailureCode.authRequired) := by
  refine ⟨by decide, by decide, ?_⟩
  intro m h
  have : FailureCode.validationError = FailureCode.authRequired := by
    have h0 : (serverHandler createPostValidate createPostBody none "" []).1
        = HandlerOutput.returned
            (StructuredResult.failure "Invalid input"
              FailureCode.validationError) := by decide
    rw [h0] at h
    cases h
  cases this

/-- C3 amended: a call whose request headers yield no session performs no
side effect (the state is unchanged) and never executes the handler body;
and if in addition the input passes the declared schema, the call returns
a failure Structured Result with code AUTH_REQUIRED. -/
theorem no_session_no_side_effect {ι σ α : Type} (validate : ι → Bool)
    (body : Session → ι → σ → BodyOutcome α σ) (input : ι) (state : σ) :
    ((serverHandler validate body none input state).2.1 = state
      ∧ (serverHandler validate body none input state).2.2 = false)
    ∧ (validate input = true →
        (serverHandler validate body none input state).1
          = HandlerOutput.returned
              (StructuredResult.failure "Authentication required"
                FailureCode.authRequired)) := by
  by_cases h : validate input
  · refine ⟨⟨?_, ?_⟩, fun _ => ?_⟩ <;> simp [serverHandler, h]
  · refine ⟨⟨?_, ?_⟩, fun hv => absurd hv (by simpa using h)⟩ <;>
      simp [serverHandler, h]

/-- Witness for the amended C3 at the create-post handler: a valid title
with no session leaves the post list unchanged, runs no body, and yields
AUTH_REQUIRED. -/
theorem no_session_no_side_effect_witness :
    ((serverHandler createPostValidate createPostBody none "hello" []).2.1
        = ([] : List String)
      ∧ (serverHandler createPostValidate createPostBody
          none "hello" []).2.2 = false)
    ∧ (createPostValidate "hello" = true →
        (serverHandler createPostValidate createPostBody
            none "hello" []).1
          = HandlerOutput.returned
              (StructuredResult.failure "Authentication required"
                FailureCode.authRequired)) :=
  no_session_no_side_effect createPostValidate createPostBody "hello" []

/-- C4: expected domain failures are always returned as tagged Structured
Results, never raised: a validation failure comes back as a returned
VALIDATION_ERROR, a missing session as a returned AUTH_REQUIRED, and a
domain failure signalled by the body (forbidden or not-found) as a
returned failure carrying that failure's enumerated code, so a caller can
always inspect the tag. -/
theorem expected_failures_returned_not_raised {ι σ α : Type}
    (validate : ι → Bool) (body : Session → ι → σ → BodyOutcome α σ)
    (session : Option Session) (input : ι) (state : σ) :
    (validate input = false →
      (serverHandler validate body session input state).1
        = HandlerOutput.returned
            (StructuredResult.failure "Invalid input"
              FailureCode.validationError))
    ∧ (validate input = true → session = none →
        (serverHandler validate body session input state).1
          = HandlerOutput.returned
              (StructuredResult.failure "Authentication required"
                FailureCode.authRequired))
    ∧ (∀ s f, validate input = true → session = some s →
        body s input state = BodyOutcome.domainFail f →
        (serverHandler validate body session input state).1
          = HandlerOutput.returned
              (StructuredResult.failure f.message f.code)) := by
  refine ⟨fun hv => ?_, fun hv hs => ?_, fun s f hv hs hb => ?_⟩
  · simp [serverHandler, hv]
  · subst hs; simp [serverHandler, hv]
  · subst hs; simp [serverHandler, hv, hb]

/-- An update body used as witness material: renaming a post that is not
present signals a not-found domain failure. -/
def renamePostBody (_s : Session) (title : String) (posts : List String) :
    BodyOutcome String (List String) :=
  if posts.contains title then BodyOutcome.ok title posts
  else BodyOutcome.domainFail (DomainFailure.notFound "Post not found")

/-- Witness for C4 at the rename-post handler with a valid title, a
session, and an empty post list: the body signals not-found and the
boundary returns the NOT_FOUND tag instead of raising. -/
theorem expected_failures_returned_not_raised_witness :
    (createPostValidate "hello" = false →
      (serverHandler createPostValidate renamePostBody
          (some ⟨"u1", 100⟩) "hello" []).1
        = HandlerOutput.returned
            (StructuredResult.failure "Invalid input"
              FailureCode.validationError))
    ∧ (createPostValidate "hello" = true →
        (some (Session.mk "u1" 100) : Option Session) = none →
        (serverHandler createPostValidate renamePostBody
            (some ⟨"u1", 100⟩) "hello" []).1
          = HandlerOutput.returned
              (StructuredResult.failure "Authentication required"
                FailureCode.authRequired))
    ∧ (∀ s f, createPostValidate "hello" = true →
        (some (Session.mk "u1" 100) : Option Session) = some s →
        renamePostBody s "hello" [] = BodyOutcome.domainFail f →
        (serverHandler createPostValidate renamePostBody
            (some ⟨"u1", 100⟩) "hello" []).1
          = HandlerOutput.returned
              (StructuredResult.failure f.message f.code)) :=
  expected_failures_returned_not_raised createPostValidate renamePostBody
    (some ⟨"u1", 100⟩) "hello" []

/-- A minimal JSON value model for the wire shape of Structured Results. -/
inductive Json where
  | str (s : String)
  | obj (fields : List (String × Json))

/-- Modelled from the spec: serialisation of a Structured Result to the
wire-level contract. A failure serialises to an object with exactly an
error string and a code string; a success serialises to an object with
exactly a data field holding the encoded payload. -/
def StructuredResult.toWire {α : Type} (enc : α → Json) :
    StructuredResult α → Json
  | StructuredResult.success a => Json.obj [("data", enc a)]
  | StructuredResult.failure m c =>
      Json.obj [("error", Json.str m), ("code", Json.str c.wire)]

/-- C7: every failure value returned by a server handler has exactly the
wire shape of an object with an error string and a code string, and every
success value has exactly the shape of an object with a data field; this
holds for every message, code, payload and payload encoding. -/
theorem structured_result_wire_shape (α : Type) (enc : α → Json)
    (m : String) (c : FailureCode) (d : α) :
    (StructuredResult.failure m c : StructuredResult α).toWire enc
        = Json.obj [("error", Json.str m), ("code", Json.str c.wire)]
    ∧ (StructuredResult.success d).toWire enc
        = Json.obj [("data", enc d)]
    ∧ ∀ r : StructuredResult α,
        (∃ e cd, r.toWire enc
            = Json.obj [("error", Json.str e), ("code", Json.str cd)])
        ∨ ∃ j, r.toWire enc = Json.obj [("data", j)] := by
  refine ⟨rfl, rfl, fun r => ?_⟩
  cases r with
  | success a => exact Or.inr ⟨enc a, rfl⟩
  | failure m2 c2 => exact Or.inl ⟨m2, c2.wire, rfl⟩

/-- Remove every cache entry whose key is associated with the mutated
resource class, so the next read of such a key re-fetches. -/
def QueryCache.invalidate {α : Type} (c : QueryCache α)
    (assoc : QueryKey → Bool) : QueryCache α :=
  QueryCache.mk (c.entries.filter (fun p => !assoc p.1))

/-- Modelled from the spec: the mutation caller's settle step: on a
successful Structured Result every associated Query Cache entry is
invalidated; on a failure Structured Result no invalidation occurs. -/
def onMutationSettled {α β : Type} (r : StructuredResult α)
    (c : QueryCache β) (assoc : QueryKey → Bool) : QueryCache β :=
  match r with
  | StructuredResult.success _ => c.invalidate assoc
  | StructuredResult.failure _ _ => c

theorem lookup_invalidate {α : Type} (c : QueryCache α)
    (assoc : QueryKey → Bool) (k : QueryKey) (hk : assoc k = true) :
    (c.invalidate assoc).lookup k = none := by
  simp only [QueryCache.lookup, QueryCache.invalidate, lookupEntries,
    Option.map_eq_none', List.find?_eq_none, List.mem_filter]
  intro p hp hpk
  rcases hp with ⟨_, hfilter⟩
  simp only [decide_eq_true_eq] at hpk
  simp only [Bool.not_eq_true', hpk, hk] at hfilter
  cases hfilter

/-- C5: the caller invalidates associated cache entries exactly on
success: a failure Structured Result leaves the cache unchanged, while a
success Structured Result removes the associated entry, so a subsequent
read of that key misses, issues exactly one re-fetch, and afterwards the
cache holds the mutated value. -/
theorem mutation_invalidates_on_success_only {α β : Type}
    (r : StructuredResult α) (c : QueryCache β) (assoc : QueryKey → Bool)
    (k : QueryKey) (newVal : β) (staleTime now : Nat)
    (hk : assoc k = true) :
    (∀ m cd, r = StructuredResult.failure m cd →
        onMutationSettled r c assoc = c)
    ∧ (∀ d, r = StructuredResult.success d →
        (onMutationSettled r c assoc).lookup k = none
        ∧ (ensureQueryData (onMutationSettled r c assoc) k
            (fun _ => newVal) staleTime now).2 = 1
        ∧ (ensureQueryData (onMutationSettled r c assoc) k
            (fun _ => newVal) staleTime now).1.lookup k
              = some (QueryEntry.mk newVal now)) := by
  constructor
  · intro m cd hr
    subst hr
    rfl
  · intro d hr
    subst hr
    have hmiss : (onMutationSettled (StructuredResult.success d) c
        assoc).lookup k = none := lookup_invalidate c assoc k hk
    refine ⟨hmiss, ?_, ?_⟩
    · unfold ensureQueryData
      rw [hmiss]
    · unfold ensureQueryData
      rw [hmiss]
      exact lookup_store _ k _

/-- Association predicate for the posts resource class, used as witness
material. -/
def postsAssoc : QueryKey → Bool :=
  fun k => decide (k = ["posts"])

/-- A concrete cache holding one stale-free posts entry, used as witness
material. -/
def postsCache : QueryCache Nat :=
  QueryCache.mk [(["posts"], QueryEntry.mk 1 0)]

/-- Witness for C5 at a concrete successful mutation over the posts
cache: the entry is invalidated, the subsequent read fetches exactly once
and then reflects the mutated value 2. -/
theorem mutation_invalidates_on_success_only_witness :
    postsAssoc ["posts"] = true
    ∧ ((onMutationSettled (StructuredResult.success (0 : Nat)) postsCache
          postsAssoc).lookup ["posts"] = none
      ∧ (ensureQueryData (onMutationSettled
            (StructuredResult.success (0 : Nat)) postsCache postsAssoc)
            ["posts"] (fun _ => (2 : Nat)) 10 7).2 = 1
      ∧ (ensureQueryData (onMutationSettled
            (StructuredResult.success (0 : Nat)) postsCache postsAssoc)
            ["posts"] (fun _ => (2 : Nat)) 10 7).1.lookup ["posts"]
          = some (QueryEntry.mk 2 7)) :=
  ⟨by decide,
    (mutation_invalidates_on_success_only
      (StructuredResult.success (0 : Nat)) postsCache postsAssoc
      ["posts"] 2 10 7 (by decide)).2 0 rfl⟩

/-- A runtime environment: a mapping from variable names to optionally
present values. -/
abbrev Env := String → Option String

/-- The TypeScript non-null assertion applied in
src/packages/database/drizzle.config.ts line 6: at runtime it performs no
check, so the value passes through unchanged even when absent. -/
def tsNonNullAssertion (x : Option String) : Option String := x

/-- The dbCredentials object of the drizzle configuration. -/
structure DbCredentials where
  url : Option String
  deriving Repr, DecidableEq

/-- The configuration object produced by
src/packages/database/drizzle.config.ts. -/
structure DrizzleConfig where
  casing : String
  dbCredentials : DbCredentials
  dialect : String
  out : String
  schema : String
  deriving Repr, DecidableEq

/-- The drizzle configuration construction from
src/packages/database/drizzle.config.ts: defineConfig applied to the
literal options object, with dbCredentials.url read from the DATABASE_URL
environment variable through the non-null assertion. Evaluation is
modelled in Except so that a hypothetical fail-fast check on a missing
variable would surface as an error value; the source has no such check. -/
def buildDrizzleConfig (env : Env) : Except String DrizzleConfig :=
  Except.ok
    { casing := "snake_case"
      dbCredentials := { url := tsNonNullAssertion (env "DATABASE_URL") }
      dialect := "postgresql"
      out := "./drizzle"
      schema := "./src/schema/index.ts" }

/-- C9: for every environment in which DATABASE_URL is unset, the drizzle
configuration is still produced, with dbCredentials.url undefined, rather
than failing at construction time. -/
theorem drizzle_config_no_fail_fast (env : Env)
    (h : env "DATABASE_URL" = none) :
    buildDrizzleConfig env
      = Except.ok
          { casing := "snake_case"
            dbCredentials := { url := none }
            dialect := "postgresql"
            out := "./drizzle"
            schema := "./src/schema/index.ts" } := by
  simp [buildDrizzleConfig, tsNonNullAssertion, h]

/-- Witness for C9 at the empty environment. -/
theorem drizzle_config_no_fail_fast_witness :
    ((fun _ => none : Env) "DATABASE_URL" = none)
    ∧ buildDrizzleConfig (fun _ => none)
      = Except.ok
          { casing := "snake_case"
            dbCredentials := { url := none }
            dialect := "postgresql"
            out := "./drizzle"
            schema := "./src/schema/index.ts" } :=
  ⟨rfl, drizzle_config_no_fail_fast (fun _ => none) rfl⟩

/-- The Button variants listed in src/unnamed/part_000 lines 285 to 292. -/
inductive ButtonVariant where
  | default
  | secondary
  | outline
  | ghost
  | destructive
  | link
  deriving Repr, DecidableEq

/-- The Button sizes used by the component library: the tv size variants
of src/unnamed/part_000 plus the icon size used by PaginationLink. -/
inductive ButtonSize where
  | default
  | sm
  | lg
  | icon
  deriving Repr, DecidableEq

/-- The props of PaginationLink from src/unnamed/part_003 lines 40 to 43:
an optional isActive flag and an optional Button size. -/
structure PaginationLinkProps where
  isActive : Option Bool
  size : Option ButtonSize
  deriving Repr, DecidableEq

/-- The attributes observable on the rendered PaginationLink: the
anchor's aria-current and data-active attributes, and the variant and
size passed to the underlying Button. -/
structure RenderedPaginationLink where
  ariaCurrent : Option String
  dataActive : Option Bool
  variant : ButtonVariant
  size : ButtonSize
  deriving Repr, DecidableEq

/-- The PaginationLink component from src/unnamed/part_003 lines 45 to
70: aria-current is the string page exactly when isActive is true and
undefined otherwise (a JavaScript truthiness test, so an absent or false
isActive yields undefined); data-active mirrors isActive; the underlying
Button receives variant outline when isActive is true and ghost
otherwise; the size parameter defaults to icon when the prop is absent. -/
def paginationLink (props : PaginationLinkProps) : RenderedPaginationLink :=
  { ariaCurrent := if props.isActive = some true then some "page" else none
    dataActive := props.isActive
    variant :=
      if props.isActive = some true then ButtonVariant.outline
      else ButtonVariant.ghost
    size := props.size.getD ButtonSize.icon }

/-- C10: for every props input, the rendered anchor has aria-current
equal to page exactly when isActive is true and undefined otherwise, the
underlying Button variant is outline when isActive is true and ghost
otherwise, and the size defaults to icon when no size prop is given
(while a given size is passed through). -/
theorem pagination_link_render (p : PaginationLinkProps) :
    ((paginationLink p).ariaCurrent = some "page" ↔ p.isActive = some true)
    ∧ (p.isActive ≠ some true → (paginationLink p).ariaCurrent = none)
    ∧ ((paginationLink p).variant = ButtonVariant.outline
        ↔ p.isActive = some true)
    ∧ (p.isActive ≠ some true →
        (paginationLink p).variant = ButtonVariant.ghost)
    ∧ (p.size = none → (paginationLink p).size = ButtonSize.icon)
    ∧ (∀ s, p.size = some s → (paginationLink p).size = s) := by
  refine ⟨?_, ?_, ?_, ?_, ?_, ?_⟩
  · by_cases h : p.isActive = some true <;> simp [paginationLink, h]
  · intro h
    simp [paginationLink, h]
  · by_cases h : p.isActive = some true <;> simp [paginationLink, h]
  · intro h
    simp [paginationLink, h]
  · intro h
    simp [paginationLink, h]
  · intro s h
    simp [paginationLink, h]

/-- Witness for C10 at the active link with no size prop: aria-current is
page, the variant is outline, and the size falls back to icon. -/
theorem pagination_link_render_witness :
    ((paginationLink ⟨some true, none⟩).ariaCurrent = some "page"
        ↔ (some true : Option Bool) = some true)
    ∧ ((some true : Option Bool) ≠ some true →
        (paginationLink ⟨some true, none⟩).ariaCurrent = none)
    ∧ ((paginationLink ⟨some true, none⟩).variant = ButtonVariant.outline
        ↔ (some true : Option Bool) = some true)
    ∧ ((some true : Option Bool) ≠ some true →
        (paginationLink ⟨some true, none⟩).variant = ButtonVariant.ghost)
    ∧ ((none : Option ButtonSize) = none →
        (paginationLink ⟨some true, none⟩).size = ButtonSize.icon)
    ∧ (∀ s, (none : Option ButtonSize) = some s →
        (paginationLink ⟨some true, none⟩).size = s) :=
  pagination_link_render ⟨some true, none⟩
